import Mathlib

/-!
Shallow embedding of the invoice extraction-and-validation pipeline of the
document-extractor-api repository, together with theorems checking the
natural-language specification against the code.

Python `Decimal` values are modelled as exact rationals (`ℚ`); Python `int`
as `ℤ`; Python strings as `String`.  Fallible construction (`pydantic`
validation) is modelled with `Except`.  Datetime values are modelled as
opaque integers (only their presence matters to the embedded logic).
-/

namespace DocExtractor

/-- Decidable equality of `Except` values, so that claim witnesses can be
checked by evaluation. -/
instance {ε α : Type _} [DecidableEq ε] [DecidableEq α] : DecidableEq (Except ε α) := fun
  | .error e, .error f => decidable_of_iff (e = f) (by simp)
  | .error _, .ok _ => .isFalse (by simp)
  | .ok _, .error _ => .isFalse (by simp)
  | .ok a, .ok b => decidable_of_iff (a = b) (by simp)

/-- Python's `abs` on exact decimals, written so that it evaluates by
kernel reduction. -/
def ratAbs (q : ℚ) : ℚ := if q < 0 then -q else q

/-- Python's `str.strip()` (pydantic `str_strip_whitespace`), written with
structural recursion so that it evaluates by kernel reduction. -/
def strTrim (s : String) : String :=
  ⟨((s.data.dropWhile Char.isWhitespace).reverse.dropWhile Char.isWhitespace).reverse⟩

/-! ## Domain model: app/domain/models/invoice.py -/

/-- Construction-time validation error.  The mismatch constructors carry the
stored (extracted) value and the recomputed value, mirroring the Python
`ValueError` messages, e.g. `'Total {v} does not match calculated total {c}'`.
`constraint f` stands for a pydantic `Field` constraint failure on field `f`
(`gt`/`ge`/`le`/`min_length`). -/
inductive ConsError where
  | constraint (field : String)
  | phoneTooShort
  | itemTotalMismatch (stored calculated : ℚ)
  | subtotalMismatch (stored calculated : ℚ)
  | taxMismatch (stored calculated : ℚ)
  | totalMismatch (stored calculated : ℚ)
deriving DecidableEq, Repr

/-- `Address` model (street/city/state/zip default to `""`, optional phone). -/
structure Address where
  street : String
  city : String
  state : String
  zip_code : String
  phone : Option String
deriving DecidableEq, Repr

/-- Raw payload for one `Address` before pydantic validation. -/
structure AddressPayload where
  street : String := ""
  city : String := ""
  state : String := ""
  zip_code : String := ""
  phone : Option String := none
deriving DecidableEq, Repr

/-- `Address` construction: strings are stripped (`str_strip_whitespace`);
`validate_phone` rejects a present, non-bracketed phone of fewer than 10
characters and normalizes an empty phone to `None`. -/
def mkAddress (p : AddressPayload) : Except ConsError Address :=
  match p.phone with
  | none =>
      .ok ⟨strTrim p.street, strTrim p.city, strTrim p.state, strTrim p.zip_code, none⟩
  | some raw =>
      if strTrim raw ≠ "" ∧ ¬ (strTrim raw).startsWith "[" ∧ (strTrim raw).length < 10 then
        .error .phoneTooShort
      else
        .ok ⟨strTrim p.street, strTrim p.city, strTrim p.state, strTrim p.zip_code,
             if strTrim raw = "" then none else some (strTrim raw)⟩

/-- `InvoiceItem` model: quantity strictly positive, unit price and line
total non-negative exact decimals. -/
structure InvoiceItem where
  id : String
  item_number : String
  description : String
  quantity : ℤ
  unit_price : ℚ
  total : ℚ
deriving DecidableEq, Repr

/-- Raw payload for one `InvoiceItem`. -/
structure InvoiceItemPayload where
  id : String := ""
  item_number : String := ""
  description : String := ""
  quantity : ℤ
  unit_price : ℚ
  total : ℚ
deriving DecidableEq, Repr

/-- `InvoiceItem` construction: pydantic field constraints
(`quantity > 0`, `unit_price ≥ 0`, `total ≥ 0`) followed by
`validate_total`: fail iff `|quantity * unit_price - total| > 0.01`. -/
def mkInvoiceItem (p : InvoiceItemPayload) : Except ConsError InvoiceItem :=
  if ¬ 0 < p.quantity then .error (.constraint "quantity")
  else if ¬ 0 ≤ p.unit_price then .error (.constraint "unit_price")
  else if ¬ 0 ≤ p.total then .error (.constraint "total")
  else if ratAbs ((p.quantity : ℚ) * p.unit_price - p.total) > 1/100 then
    .error (.itemTotalMismatch p.total ((p.quantity : ℚ) * p.unit_price))
  else
    .ok ⟨strTrim p.id, strTrim p.item_number, strTrim p.description,
         p.quantity, p.unit_price, p.total⟩

/-- `InvoiceData` model (validated instance). -/
structure InvoiceData where
  id : String
  invoice_number : String
  invoice_date : Option ℤ
  customer_id : Option String
  customer_name : String
  billing_address : Address
  shipping_address : Address
  items : List InvoiceItem
  subtotal : ℚ
  tax_rate : ℚ
  tax : ℚ
  total : ℚ
  salesperson : Option String
  po_number : Option String
  terms : Option String
  ship_date : Option ℤ
  ship_via : Option String
  fob : Option String
  created_at : ℤ
  updated_at : Option ℤ
  extraction_confidence : Option ℚ
deriving DecidableEq, Repr

/-- Raw payload for an `InvoiceData` construction. -/
structure InvoicePayload where
  id : String := ""
  invoice_number : String := ""
  invoice_date : Option ℤ := none
  customer_id : Option String := none
  customer_name : String := ""
  billing_address : AddressPayload
  shipping_address : AddressPayload
  items : List InvoiceItemPayload
  subtotal : ℚ
  tax_rate : ℚ
  tax : ℚ
  total : ℚ
  salesperson : Option String := none
  po_number : Option String := none
  terms : Option String := none
  ship_date : Option ℤ := none
  ship_via : Option String := none
  fob : Option String := none
  created_at : ℤ := 0
  updated_at : Option ℤ := none
  extraction_confidence : Option ℚ := none
deriving DecidableEq, Repr

/-- `sum(item.total for item in items)`. -/
def sumItemTotals (items : List InvoiceItem) : ℚ :=
  (items.map (·.total)).sum

/-- The recomputed subtotal of a payload, `sum` of its item totals. -/
def payloadSubtotalCalc (p : InvoicePayload) : ℚ :=
  (p.items.map (·.total)).sum

/-- Element-wise validation of the `items` payload list (pydantic validates
each list element as an `InvoiceItem`, stopping at the first failure). -/
def mkItems : List InvoiceItemPayload → Except ConsError (List InvoiceItem)
  | [] => .ok []
  | q :: qs =>
    match mkInvoiceItem q with
    | .error e => .error e
    | .ok it =>
      match mkItems qs with
      | .error e => .error e
      | .ok its => .ok (it :: its)

/-- Field-constraint and validator chain of `InvoiceData` construction,
after the nested `Address` and item payloads have validated: `min_length=1`
on items, then `subtotal` (`ge=0` + `validate_subtotal`, tolerance 0.01),
`tax_rate` (`ge=0, le=1`), `tax` (`ge=0` + `validate_tax`, tolerance 1.00),
`total` (`ge=0` + `validate_total`, tolerance 5.00) and the optional
`extraction_confidence` bounds. -/
def mkInvoiceChecks (p : InvoicePayload) (billing_address shipping_address : Address)
    (items : List InvoiceItem) : Except ConsError InvoiceData :=
  if items.length < 1 then .error (.constraint "items")
  else if ¬ 0 ≤ p.subtotal then .error (.constraint "subtotal")
  else if ratAbs (sumItemTotals items - p.subtotal) > 1/100 then
    .error (.subtotalMismatch p.subtotal (sumItemTotals items))
  else if ¬ (0 ≤ p.tax_rate ∧ p.tax_rate ≤ 1) then .error (.constraint "tax_rate")
  else if ¬ 0 ≤ p.tax then .error (.constraint "tax")
  else if ratAbs (p.subtotal * p.tax_rate - p.tax) > 1 then
    .error (.taxMismatch p.tax (p.subtotal * p.tax_rate))
  else if ¬ 0 ≤ p.total then .error (.constraint "total")
  else if ratAbs (p.subtotal + p.tax - p.total) > 5 then
    .error (.totalMismatch p.total (p.subtotal + p.tax))
  else if ¬ (∀ c ∈ p.extraction_confidence, 0 ≤ c ∧ c ≤ 1) then
    .error (.constraint "extraction_confidence")
  else
    .ok ⟨strTrim p.id, strTrim p.invoice_number, p.invoice_date, p.customer_id,
         strTrim p.customer_name, billing_address, shipping_address, items,
         p.subtotal, p.tax_rate, p.tax, p.total,
         p.salesperson, p.po_number, p.terms, p.ship_date, p.ship_via, p.fob,
         p.created_at, p.updated_at, p.extraction_confidence⟩

/-- `InvoiceData` construction, in pydantic field-declaration order: nested
`Address` validation for billing then shipping, element-wise item
validation, then the field-constraint and validator chain. -/
def mkInvoiceData (p : InvoicePayload) : Except ConsError InvoiceData :=
  match mkAddress p.billing_address with
  | .error e => .error e
  | .ok billing_address =>
  match mkAddress p.shipping_address with
  | .error e => .error e
  | .ok shipping_address =>
  match mkItems p.items with
  | .error e => .error e
  | .ok items => mkInvoiceChecks p billing_address shipping_address items

/-! ## Confidence scoring: OpenAIClient._calculate_confidence_score -/

/-- Python truthiness/completeness test for one line item:
`item.description and item.quantity > 0`. -/
def itemComplete (item : InvoiceItem) : Bool :=
  decide (item.description ≠ "" ∧ 0 < item.quantity)

/-- `_calculate_confidence_score`: base confidence 0.8 plus fixed
completeness increments, capped at 1.0. -/
def calculate_confidence_score (d : InvoiceData) : ℚ :=
  min ((8:ℚ)/10 +
    ((if d.invoice_number ≠ "" then (1:ℚ)/10 else 0)
     + (if d.customer_name ≠ "" then (1:ℚ)/10 else 0)
     + (if d.items ≠ [] then (2:ℚ)/10 else 0)
     + (if d.billing_address.street ≠ "" ∧ d.billing_address.city ≠ "" then (1:ℚ)/10 else 0)
     + (if 0 < d.subtotal then (1:ℚ)/10 else 0)
     + (if 0 < d.total then (1:ℚ)/10 else 0)
     + (if 0 ≤ d.tax_rate then (1:ℚ)/10 else 0)
     + (if d.invoice_date.isSome then (1:ℚ)/10 else 0)
     + (if 0 < d.items.length then (1:ℚ)/10 else 0)
     + (if d.items.all itemComplete then (1:ℚ)/10 else 0))) 1

/-- The ten boolean completeness signals inspected by the scorer. -/
structure ConfidenceSignals where
  invoiceNumberPresent : Bool
  customerNamePresent : Bool
  itemsTruthy : Bool
  addressComplete : Bool
  subtotalPositive : Bool
  totalPositive : Bool
  taxRateNonneg : Bool
  datePresent : Bool
  itemsLenPositive : Bool
  allItemsComplete : Bool
deriving DecidableEq, Repr

/-- The signals the scorer reads off a given `InvoiceData`. -/
def signalsOf (d : InvoiceData) : ConfidenceSignals where
  invoiceNumberPresent := decide (d.invoice_number ≠ "")
  customerNamePresent := decide (d.customer_name ≠ "")
  itemsTruthy := decide (d.items ≠ [])
  addressComplete := decide (d.billing_address.street ≠ "" ∧ d.billing_address.city ≠ "")
  subtotalPositive := decide (0 < d.subtotal)
  totalPositive := decide (0 < d.total)
  taxRateNonneg := decide (0 ≤ d.tax_rate)
  datePresent := d.invoice_date.isSome
  itemsLenPositive := decide (0 < d.items.length)
  allItemsComplete := d.items.all itemComplete

/-- Total increment contributed by a signal vector: 0.1 per signal except
the items-truthiness signal, which contributes 0.2. -/
def signalIncrements (s : ConfidenceSignals) : ℚ :=
  (if s.invoiceNumberPresent then (1:ℚ)/10 else 0)
  + (if s.customerNamePresent then (1:ℚ)/10 else 0)
  + (if s.itemsTruthy then (2:ℚ)/10 else 0)
  + (if s.addressComplete then (1:ℚ)/10 else 0)
  + (if s.subtotalPositive then (1:ℚ)/10 else 0)
  + (if s.totalPositive then (1:ℚ)/10 else 0)
  + (if s.taxRateNonneg then (1:ℚ)/10 else 0)
  + (if s.datePresent then (1:ℚ)/10 else 0)
  + (if s.itemsLenPositive then (1:ℚ)/10 else 0)
  + (if s.allItemsComplete then (1:ℚ)/10 else 0)

/-- Score as a function of the signal vector. -/
def scoreOfSignals (s : ConfidenceSignals) : ℚ :=
  min (8/10 + signalIncrements s) 1

/-- Pointwise order on signal vectors: `s` has at most the signals of `t`. -/
def SignalsLE (s t : ConfidenceSignals) : Prop :=
  (s.invoiceNumberPresent = true → t.invoiceNumberPresent = true)
  ∧ (s.customerNamePresent = true → t.customerNamePresent = true)
  ∧ (s.itemsTruthy = true → t.itemsTruthy = true)
  ∧ (s.addressComplete = true → t.addressComplete = true)
  ∧ (s.subtotalPositive = true → t.subtotalPositive = true)
  ∧ (s.totalPositive = true → t.totalPositive = true)
  ∧ (s.taxRateNonneg = true → t.taxRateNonneg = true)
  ∧ (s.datePresent = true → t.datePresent = true)
  ∧ (s.itemsLenPositive = true → t.itemsLenPositive = true)
  ∧ (s.allItemsComplete = true → t.allItemsComplete = true)

instance (s t : ConfidenceSignals) : Decidable (SignalsLE s t) := by
  unfold SignalsLE; infer_instance

/-! ## Field reassignment (`model_config validate_assignment=True`)

Pydantic's `validate_assignment` validates ONLY the assigned field: it runs
that field's constraints and its `@validator` hooks (whose `values` hold the
other current field values); validators attached to other fields are not
re-run.  One assignment function per financially relevant field. -/

/-- Assign `subtotal`: `ge=0` plus `validate_subtotal` against the current
items. -/
def assign_subtotal (d : InvoiceData) (v : ℚ) : Except ConsError InvoiceData :=
  if ¬ 0 ≤ v then .error (.constraint "subtotal")
  else if ratAbs (sumItemTotals d.items - v) > 1/100 then
    .error (.subtotalMismatch v (sumItemTotals d.items))
  else .ok { d with subtotal := v }

/-- Assign `tax`: `ge=0` plus `validate_tax` against current
`subtotal * tax_rate` (tolerance 1.00). -/
def assign_tax (d : InvoiceData) (v : ℚ) : Except ConsError InvoiceData :=
  if ¬ 0 ≤ v then .error (.constraint "tax")
  else if ratAbs (d.subtotal * d.tax_rate - v) > 1 then
    .error (.taxMismatch v (d.subtotal * d.tax_rate))
  else .ok { d with tax := v }

/-- Assign `total`: `ge=0` plus `validate_total` against current
`subtotal + tax` (tolerance 5.00). -/
def assign_total (d : InvoiceData) (v : ℚ) : Except ConsError InvoiceData :=
  if ¬ 0 ≤ v then .error (.constraint "total")
  else if ratAbs (d.subtotal + d.tax - v) > 5 then
    .error (.totalMismatch v (d.subtotal + d.tax))
  else .ok { d with total := v }

/-- Assign `tax_rate`: only its own `ge=0, le=1` constraints; no validator
mentions `tax_rate` as target, so nothing else is re-checked. -/
def assign_tax_rate (d : InvoiceData) (v : ℚ) : Except ConsError InvoiceData :=
  if ¬ (0 ≤ v ∧ v ≤ 1) then .error (.constraint "tax_rate")
  else .ok { d with tax_rate := v }

/-- Assign `items` (a list of already-constructed `InvoiceItem` instances):
only the list-level `min_length=1` constraint is checked
(`revalidate_instances` defaults to `never`, and no validator targets
`items`). -/
def assign_items (d : InvoiceData) (l : List InvoiceItem) : Except ConsError InvoiceData :=
  if l.length < 1 then .error (.constraint "items")
  else .ok { d with items := l }

/-- The construction-time numeric invariants of a (possibly mutated)
`InvoiceData`: per-line 0.01, subtotal 0.01, tax 1.00, total 5.00. -/
def InvoiceInvariants (d : InvoiceData) : Prop :=
  (∀ item ∈ d.items, ratAbs ((item.quantity : ℚ) * item.unit_price - item.total) ≤ 1/100)
  ∧ ratAbs (sumItemTotals d.items - d.subtotal) ≤ 1/100
  ∧ ratAbs (d.subtotal * d.tax_rate - d.tax) ≤ 1
  ∧ ratAbs (d.subtotal + d.tax - d.total) ≤ 5

instance (d : InvoiceData) : Decidable (InvoiceInvariants d) := by
  unfold InvoiceInvariants; infer_instance

/-! ## Consistency validation: OpenAIClient.validate_extraction

The Python method takes whatever object it is handed (normally a validated
`InvoiceData`, but a caller can hand it an unvalidated, even ill-typed
object via `model_construct`), so its input is modelled as a raw record
whose numeric slots may hold a non-numeric value; arithmetic on such a
value raises, which the method's `try/except` converts into a reported
error.  Only the fields the method reads are part of the raw record. -/

/-- A raised Python exception, identified by its message. -/
abbrev PyErr := String

/-- A numeric slot of the raw input: either an exact decimal or a
non-numeric value (e.g. a string) on which arithmetic raises. -/
inductive PyNum where
  | num (q : ℚ)
  | invalid (s : String)
deriving DecidableEq, Repr

/-- Using a slot as a number: raises on a non-numeric value. -/
def PyNum.toQ : PyNum → Except PyErr ℚ
  | .num q => .ok q
  | .invalid s => .error ("unsupported operand type: " ++ s)

/-- Accumulating loop of Python `sum(...)` over numeric slots; raises at
the first non-numeric addend. -/
def pySumAux (acc : ℚ) : List PyNum → Except PyErr ℚ
  | [] => .ok acc
  | x :: xs =>
    match x.toQ with
    | .error e => .error e
    | .ok q => pySumAux (acc + q) xs

/-- `sum(...)` over numeric slots, starting from `0`. -/
def pySum (l : List PyNum) : Except PyErr ℚ :=
  pySumAux 0 l

/-- Raw line item as read by `validate_extraction`. -/
structure RawItem where
  description : String := ""
  quantity : ℤ
  unit_price : PyNum
  total : PyNum
deriving DecidableEq, Repr

/-- Raw invoice as read by `validate_extraction`. -/
structure RawInvoice where
  invoice_number : String := ""
  customer_name : String := ""
  items : List RawItem
  subtotal : PyNum
  tax_rate : PyNum
  tax : PyNum
  total : PyNum
deriving DecidableEq, Repr

/-- One entry of the report's `warnings`/`errors` lists.  Each mismatch
entry carries the two values named by the corresponding Python message, in
message order (calculated first, extracted second). -/
inductive VMsg where
  | subtotalMismatch (calculated extracted : ℚ)
  | taxMismatch (calculated extracted : ℚ)
  | totalMismatch (calculated extracted : ℚ)
  | lineMismatch (line : ℕ) (quantity : ℤ) (unitPrice calculated extracted : ℚ)
  | missingInvoiceNumber
  | missingCustomerName
  | noItems
  | validationError (e : PyErr)
deriving DecidableEq, Repr

/-- The `validation_results` dictionary. -/
structure VReport where
  is_valid : Bool
  warnings : List VMsg
  errors : List VMsg
  suggestions : List VMsg
deriving DecidableEq, Repr

/-- Subtotal check: recompute `sum(item.total ...)`, warn beyond 0.01. -/
def checkSubtotal (d : RawInvoice) (r : VReport) : VReport × Option PyErr :=
  match pySum (d.items.map (·.total)) with
  | .error e => (r, some e)
  | .ok s =>
    match d.subtotal.toQ with
    | .error e => (r, some e)
    | .ok v =>
        (if ratAbs (s - v) > 1/100 then
          { r with warnings := r.warnings ++ [.subtotalMismatch s v] }
        else r, none)

/-- Tax check: recompute `subtotal * tax_rate`, warn beyond 0.01. -/
def checkTax (d : RawInvoice) (r : VReport) : VReport × Option PyErr :=
  match d.subtotal.toQ with
  | .error e => (r, some e)
  | .ok s =>
    match d.tax_rate.toQ with
    | .error e => (r, some e)
    | .ok rate =>
      match d.tax.toQ with
      | .error e => (r, some e)
      | .ok v =>
          (if ratAbs (s * rate - v) > 1/100 then
            { r with warnings := r.warnings ++ [.taxMismatch (s * rate) v] }
          else r, none)

/-- Total check: recompute `subtotal + tax`; beyond 0.01 this is a blocking
error and clears `is_valid`. -/
def checkTotal (d : RawInvoice) (r : VReport) : VReport × Option PyErr :=
  match d.subtotal.toQ with
  | .error e => (r, some e)
  | .ok s =>
    match d.tax.toQ with
    | .error e => (r, some e)
    | .ok t =>
      match d.total.toQ with
      | .error e => (r, some e)
      | .ok v =>
          (if ratAbs (s + t - v) > 1/100 then
            { r with errors := r.errors ++ [.totalMismatch (s + t) v], is_valid := false }
          else r, none)

/-- Per-line check over `enumerate(items)`: recompute
`quantity * unit_price`, warn beyond 0.01 (message numbers lines from 1). -/
def lineChecksAux (items : List RawItem) (i : ℕ) (r : VReport) : VReport × Option PyErr :=
  match items with
  | [] => (r, none)
  | item :: rest =>
    match item.unit_price.toQ with
    | .error e => (r, some e)
    | .ok up =>
      match item.total.toQ with
      | .error e => (r, some e)
      | .ok t =>
          lineChecksAux rest (i + 1)
            (if ratAbs ((item.quantity : ℚ) * up - t) > 1/100 then
              { r with warnings :=
                  r.warnings ++ [.lineMismatch (i + 1) item.quantity up ((item.quantity : ℚ) * up) t] }
            else r)

/-- Missing-critical-data checks: each always a blocking error. -/
def checkCritical (d : RawInvoice) (r : VReport) : VReport :=
  let r1 := if d.invoice_number = "" then
      { r with errors := r.errors ++ [.missingInvoiceNumber], is_valid := false } else r
  let r2 := if d.customer_name = "" then
      { r1 with errors := r1.errors ++ [.missingCustomerName], is_valid := false } else r1
  if d.items = [] then
      { r2 with errors := r2.errors ++ [.noItems], is_valid := false } else r2

/-- Sequencing inside the `try` block: once an exception is pending, later
statements do not run, and the report built so far is kept. -/
def vStep (acc : VReport × Option PyErr) (f : VReport → VReport × Option PyErr) :
    VReport × Option PyErr :=
  match acc with
  | (r, some e) => (r, some e)
  | (r, none) => f r

/-- The whole `try` block of `validate_extraction`. -/
def validateChain (d : RawInvoice) : VReport × Option PyErr :=
  vStep (vStep (vStep (vStep
    (checkSubtotal d ⟨true, [], [], []⟩)
    (checkTax d))
    (checkTotal d))
    (lineChecksAux d.items 0))
    (fun r => (checkCritical d r, none))

/-- `validate_extraction`: run the checks; the `except` branch appends a
`Validation error: ...` entry and clears `is_valid`, so the method always
returns a report and never lets an exception escape. -/
def validate_extraction (d : RawInvoice) : VReport :=
  match validateChain d with
  | (r, none) => r
  | (r, some e) => { r with is_valid := false, errors := r.errors ++ [.validationError e] }

/-- A well-typed line item handed to the validator. -/
structure TItem where
  description : String := ""
  quantity : ℤ
  unit_price : ℚ
  total : ℚ
deriving DecidableEq, Repr

/-- A well-typed invoice handed to the validator (all numeric slots hold
actual decimals; the item list may be empty, bypassing construction). -/
structure TInvoice where
  invoice_number : String := ""
  customer_name : String := ""
  items : List TItem
  subtotal : ℚ
  tax_rate : ℚ
  tax : ℚ
  total : ℚ
deriving DecidableEq, Repr

/-- Embed a well-typed item into the raw validator input. -/
def TItem.toRaw (it : TItem) : RawItem :=
  ⟨it.description, it.quantity, .num it.unit_price, .num it.total⟩

/-- Embed a well-typed invoice into the raw validator input. -/
def TInvoice.toRaw (t : TInvoice) : RawInvoice :=
  ⟨t.invoice_number, t.customer_name, t.items.map TItem.toRaw,
   .num t.subtotal, .num t.tax_rate, .num t.tax, .num t.total⟩

/-- Line warnings produced on a well-typed item list. -/
def lineWarnAux (items : List TItem) (i : ℕ) : List VMsg :=
  match items with
  | [] => []
  | it :: rest =>
      (if ratAbs ((it.quantity : ℚ) * it.unit_price - it.total) > 1/100 then
        [.lineMismatch (i + 1) it.quantity it.unit_price ((it.quantity : ℚ) * it.unit_price) it.total]
      else []) ++ lineWarnAux rest (i + 1)

/-! ## Extraction service: OpenAIClient.extract_invoice_data

The external world (filesystem, OpenAI API, clock) is abstracted as an
environment; the method's control flow over that environment is embedded
exactly: every failure is caught by the top-level `except` and converted
into a `success=False` result carrying `processing_time` and an error
message prefixed `Failed to extract invoice data: `. -/

/-- Result record (app/domain/models/document.py `ExtractionResult`). -/
structure ExtractionResult where
  document_id : String
  extraction_id : String
  success : Bool
  extracted_data : Option InvoiceData
  confidence_score : Option ℚ
  processing_time : Option ℚ
  error_message : Option String
deriving DecidableEq, Repr

/-- Outcome of the OpenAI structured-parse call. -/
inductive ModelOutcome where
  | apiError (msg : String)
  | parsedNone
  | parsed (p : InvoicePayload)
deriving DecidableEq, Repr

/-- The environment one `extract_invoice_data` call runs in: whether the
image file exists, what the model call does, the wall-clock start time and
the elapsed time at the point the result is produced. -/
structure ExtractEnv where
  fileExists : Bool
  modelOutcome : ModelOutcome
  startTime : ℤ
  elapsed : ℚ
deriving DecidableEq, Repr

/-- Message text rendering for a construction error, standing in for
`str(e)` of the underlying pydantic/Python exception (non-empty for every
constructor). -/
def ConsError.message : ConsError → String
  | .constraint f => "validation error on field " ++ f
  | .phoneTooShort => "Phone number must be at least 10 digits"
  | .itemTotalMismatch v c =>
      "Total " ++ toString v ++ " does not match calculated total " ++ toString c
  | .subtotalMismatch v c =>
      "Subtotal " ++ toString v ++ " does not match calculated subtotal " ++ toString c
  | .taxMismatch v c =>
      "Tax " ++ toString v ++ " does not match calculated tax " ++ toString c
  | .totalMismatch v c =>
      "Total " ++ toString v ++ " does not match calculated total " ++ toString c

/-- The failure result assembled in the `except` branch. -/
def failureResult (env : ExtractEnv) (document_id msg : String) : ExtractionResult where
  document_id := document_id
  extraction_id := "extract_" ++ document_id ++ "_" ++ toString env.startTime
  success := false
  extracted_data := none
  confidence_score := none
  processing_time := some env.elapsed
  error_message := some ("Failed to extract invoice data: " ++ msg)

/-- `extract_invoice_data`: read the image (missing file raises
`FileNotFoundError`), call the model with schema-constrained decoding
(API errors/timeouts raise; a `None` parse raises `ValueError`; a payload
violating the `InvoiceData` invariants raises a validation error), then
build the success result with the confidence score; every raise is caught
and converted to a failure result. -/
def extract_invoice_data (env : ExtractEnv) (document_id : String) : ExtractionResult :=
  if env.fileExists = false then
    failureResult env document_id ("Image file not found: " ++ document_id)
  else
    match env.modelOutcome with
    | .apiError m => failureResult env document_id m
    | .parsedNone =>
        failureResult env document_id "Failed to parse invoice data from OpenAI response"
    | .parsed p =>
        match mkInvoiceData p with
        | .error e => failureResult env document_id e.message
        | .ok d =>
            { document_id := document_id
              extraction_id := "extract_" ++ document_id ++ "_" ++ toString env.startTime
              success := true
              extracted_data := some d
              confidence_score := some (calculate_confidence_score d)
              processing_time := some env.elapsed
              error_message := none }

/-! ## Batch extraction endpoint: extract_batch_documents
(app/presentation/api/v1/endpoints/extraction.py)

The per-document world (file lookup, extraction, CSV save) is abstracted
as a map from document id to outcome; the loop body appends exactly one
entry per id and its own `try/except` keeps one document's failure from
touching the others. -/

/-- What the world does for one document id during the batch loop. -/
inductive DocOutcome where
  | notFound
  | extractionFailed (msg : String)
  | saveRaised (msg : String)
  | saved (invoice_id : String) (confidence : Option ℚ)
deriving DecidableEq, Repr

/-- One entry of the batch `results` list. -/
structure BatchEntry where
  document_id : String
  success : Bool
  invoice_id : Option String
  confidence_score : Option ℚ
  error : Option String
deriving DecidableEq, Repr

/-- The summary dictionary of the batch response. -/
structure BatchSummary where
  total_processed : ℕ
  successful : ℕ
  failed : ℕ
deriving DecidableEq, Repr

/-- The loop body for one document id: not-found appends a
`"Document not found"` failure entry; a failed extraction appends its error
message; an exception while saving is caught by the per-document `except`
and appended as a failure entry; success appends the invoice id and
confidence score. -/
def batchEntryFor (env : String → DocOutcome) (document_id : String) : BatchEntry :=
  match env document_id with
  | .notFound => ⟨document_id, false, none, none, some "Document not found"⟩
  | .extractionFailed m => ⟨document_id, false, none, none, some m⟩
  | .saveRaised m => ⟨document_id, false, none, none, some m⟩
  | .saved iid conf => ⟨document_id, true, some iid, conf, none⟩

/-- `extract_batch_documents`: process each id in order, then summarize
(`successful` = entries with `success`, `failed` = `total - successful`). -/
def extract_batch_documents (env : String → DocOutcome) (document_ids : List String) :
    List BatchEntry × BatchSummary :=
  let results := document_ids.map (batchEntryFor env)
  let successful := (results.filter (·.success)).length
  let total := results.length
  (results, ⟨total, successful, total - successful⟩)

/-! ## Concrete instances used by the claim theorems and witnesses -/

/-- A construction payload matching spec Scenario B
(subtotal=100, taxRate=0.08, tax=8, total=108, one consistent item). -/
def examplePayload : InvoicePayload where
  invoice_number := "INV-1"
  customer_name := "ACME"
  billing_address := {}
  shipping_address := {}
  items := [{ id := "i1", description := "widget", quantity := 1, unit_price := 100, total := 100 }]
  subtotal := 100
  tax_rate := 8/100
  tax := 8
  total := 108

/-- The `InvoiceData` that `examplePayload` constructs. -/
def exampleInvoice : InvoiceData :=
  ⟨"", "INV-1", none, none, "ACME", ⟨"", "", "", "", none⟩, ⟨"", "", "", "", none⟩,
   [⟨"i1", "", "widget", 1, 100, 100⟩], 100, 8/100, 8, 108,
   none, none, none, none, none, none, 0, none, none⟩

/-- `exampleInvoice` after the assignment `tax_rate := 1`. -/
def exampleInvoiceRateOne : InvoiceData := { exampleInvoice with tax_rate := 1 }

/-- A construction payload matching spec Scenario C
(subtotal=100, tax=8, total=200). -/
def scCPayload : InvoicePayload := { examplePayload with total := 200 }

/-- The report `validate_extraction` produces on a well-typed input, in
closed form. -/
def typedReport (t : TInvoice) : VReport where
  is_valid :=
    if ratAbs (t.subtotal + t.tax - t.total) > 1/100 ∨ t.invoice_number = ""
        ∨ t.customer_name = "" ∨ t.items = [] then false else true
  warnings :=
    (if ratAbs ((t.items.map (·.total)).sum - t.subtotal) > 1/100 then
      [.subtotalMismatch ((t.items.map (·.total)).sum) t.subtotal] else [])
    ++ ((if ratAbs (t.subtotal * t.tax_rate - t.tax) > 1/100 then
      [.taxMismatch (t.subtotal * t.tax_rate) t.tax] else [])
    ++ lineWarnAux t.items 0)
  errors :=
    (if ratAbs (t.subtotal + t.tax - t.total) > 1/100 then
      [.totalMismatch (t.subtotal + t.tax) t.total] else [])
    ++ ((if t.invoice_number = "" then [.missingInvoiceNumber] else [])
    ++ ((if t.customer_name = "" then [.missingCustomerName] else [])
    ++ (if t.items = [] then [.noItems] else [])))
  suggestions := []

/-- Well-formedness of a report: `is_valid` is cleared exactly when a
blocking error has been recorded. -/
def ReportOk (r : VReport) : Prop := r.is_valid = false ↔ r.errors ≠ []

/-- A well-typed invoice with a missing invoice number, used as the C2
witness input. -/
def tMissingInv : TInvoice :=
  ⟨"", "ACME", [⟨"widget", 1, 100, 100⟩], 100, 8/100, 8, 108⟩


/-! ## Helper lemmas about construction -/

theorem ratAbs_eq_abs (q : ℚ) : ratAbs q = |q| := by
  unfold ratAbs
  split_ifs with h
  · exact (abs_of_neg h).symm
  · exact (abs_of_nonneg (not_lt.mp h)).symm


theorem mkInvoiceItem_ok_spec {p : InvoiceItemPayload} {it : InvoiceItem}
    (h : mkInvoiceItem p = .ok it) :
    it.total = p.total ∧ |(p.quantity : ℚ) * p.unit_price - p.total| ≤ 1/100 := by
  unfold mkInvoiceItem at h
  split_ifs at h with h1 h2 h3 h4
  rw [Except.ok.injEq] at h
  subst h
  refine ⟨rfl, ?_⟩
  rw [← ratAbs_eq_abs]
  exact not_lt.mp h4

theorem mkItems_ok_totals {ps : List InvoiceItemPayload} {items : List InvoiceItem}
    (h : mkItems ps = .ok items) :
    items.map (·.total) = ps.map (·.total) ∧ items.length = ps.length := by
  induction ps generalizing items with
  | nil =>
    unfold mkItems at h
    rw [Except.ok.injEq] at h
    subst h
    simp
  | cons q qs ih =>
    unfold mkItems at h
    cases hq : mkInvoiceItem q with
    | error e => rw [hq] at h; exact absurd h (by simp)
    | ok it =>
      rw [hq] at h
      cases hqs : mkItems qs with
      | error e => rw [hqs] at h; exact absurd h (by simp)
      | ok its =>
        rw [hqs, Except.ok.injEq] at h
        subst h
        obtain ⟨htot, hlen⟩ := ih hqs
        obtain ⟨hq1, _⟩ := mkInvoiceItem_ok_spec hq
        simp [hq1, htot, hlen]

theorem mkItems_error_mem {ps : List InvoiceItemPayload} {e : ConsError}
    (h : mkItems ps = .error e) : ∃ q ∈ ps, mkInvoiceItem q = .error e := by
  induction ps with
  | nil =>
    unfold mkItems at h
    exact absurd h (by simp)
  | cons q qs ih =>
    unfold mkItems at h
    cases hq : mkInvoiceItem q with
    | error e₀ =>
      rw [hq] at h
      rw [Except.error.injEq] at h
      subst h
      exact ⟨q, by simp, hq⟩
    | ok it =>
      rw [hq] at h
      cases hqs : mkItems qs with
      | error e₀ =>
        rw [hqs] at h
        rw [Except.error.injEq] at h
        subst h
        obtain ⟨q₀, hmem, hq₀⟩ := ih hqs
        exact ⟨q₀, by simp [hmem], hq₀⟩
      | ok its => rw [hqs] at h; exact absurd h (by simp)

theorem mkAddress_error_shape {p : AddressPayload} {e : ConsError}
    (h : mkAddress p = .error e) : e = .phoneTooShort := by
  unfold mkAddress at h
  split at h
  · exact absurd h (by simp)
  · split_ifs at h with h1
    rw [Except.error.injEq] at h
    exact h.symm

theorem mkInvoiceItem_error_shape {p : InvoiceItemPayload} {e : ConsError}
    (h : mkInvoiceItem p = .error e) :
    (∃ f, e = .constraint f) ∨ ∃ s c, e = .itemTotalMismatch s c := by
  unfold mkInvoiceItem at h
  split_ifs at h <;> rw [Except.error.injEq] at h <;>
    first
      | exact Or.inl ⟨_, h.symm⟩
      | exact Or.inr ⟨_, _, h.symm⟩

theorem mkInvoiceData_ok_elim {p : InvoicePayload} {d : InvoiceData}
    (h : mkInvoiceData p = .ok d) :
    ∃ billing shipping items, mkAddress p.billing_address = .ok billing
      ∧ mkAddress p.shipping_address = .ok shipping
      ∧ mkItems p.items = .ok items
      ∧ mkInvoiceChecks p billing shipping items = .ok d := by
  unfold mkInvoiceData at h
  split at h
  · exact absurd h (by simp)
  · rename_i billing hb
    split at h
    · exact absurd h (by simp)
    · rename_i shipping hs
      split at h
      · exact absurd h (by simp)
      · rename_i items hi
        exact ⟨billing, shipping, items, hb, hs, hi, h⟩

theorem mkInvoiceData_error_elim {p : InvoicePayload} {e : ConsError}
    (h : mkInvoiceData p = .error e) :
    e = .phoneTooShort
    ∨ (∃ q ∈ p.items, mkInvoiceItem q = .error e)
    ∨ ∃ billing shipping items, mkItems p.items = .ok items
        ∧ mkInvoiceChecks p billing shipping items = .error e := by
  unfold mkInvoiceData at h
  split at h
  · rename_i e₀ hb
    rw [Except.error.injEq] at h
    subst h
    exact Or.inl (mkAddress_error_shape hb)
  · rename_i billing hb
    split at h
    · rename_i e₀ hs
      rw [Except.error.injEq] at h
      subst h
      exact Or.inl (mkAddress_error_shape hs)
    · rename_i shipping hs
      split at h
      · rename_i e₀ hi
        rw [Except.error.injEq] at h
        subst h
        exact Or.inr (Or.inl (mkItems_error_mem hi))
      · rename_i items hi
        exact Or.inr (Or.inr ⟨billing, shipping, items, hi, h⟩)

theorem mkInvoiceChecks_ok_spec {p : InvoicePayload} {b s : Address}
    {items : List InvoiceItem} {d : InvoiceData}
    (h : mkInvoiceChecks p b s items = .ok d) :
    d.items = items ∧ d.subtotal = p.subtotal ∧ d.tax_rate = p.tax_rate
    ∧ d.tax = p.tax ∧ d.total = p.total
    ∧ 1 ≤ items.length ∧ 0 ≤ p.tax_rate ∧ p.tax_rate ≤ 1
    ∧ |sumItemTotals items - p.subtotal| ≤ 1/100
    ∧ |p.subtotal * p.tax_rate - p.tax| ≤ 1
    ∧ |p.subtotal + p.tax - p.total| ≤ 5 := by
  unfold mkInvoiceChecks at h
  split_ifs at h with h1 h2 h3 h4 h5 h6 h7 h8 h9
  rw [Except.ok.injEq] at h
  subst h
  push_neg at h4
  refine ⟨rfl, rfl, rfl, rfl, rfl, ?_, h4.1, h4.2, ?_, ?_, ?_⟩
  · omega
  · rw [← ratAbs_eq_abs]; exact not_lt.mp h3
  · rw [← ratAbs_eq_abs]; exact not_lt.mp h6
  · rw [← ratAbs_eq_abs]; exact not_lt.mp h8

theorem mkInvoiceChecks_error_shape {p : InvoicePayload} {b s : Address}
    {items : List InvoiceItem} {e : ConsError}
    (h : mkInvoiceChecks p b s items = .error e) :
    (∀ st c, e = .subtotalMismatch st c → st = p.subtotal ∧ c = sumItemTotals items)
    ∧ (∀ st c, e = .taxMismatch st c → st = p.tax ∧ c = p.subtotal * p.tax_rate)
    ∧ (∀ st c, e = .totalMismatch st c → st = p.total ∧ c = p.subtotal + p.tax) := by
  unfold mkInvoiceChecks at h
  split_ifs at h <;>
    (rw [Except.error.injEq] at h; subst h;
     refine ⟨?_, ?_, ?_⟩ <;> intro st c hc <;>
       first
         | (injection hc with hh1 hh2; exact ⟨hh1.symm, hh2.symm⟩)
         | exact absurd hc (by simp))

theorem mkInvoiceData_ok_spec {p : InvoicePayload} {d : InvoiceData}
    (h : mkInvoiceData p = .ok d) :
    d.subtotal = p.subtotal ∧ d.tax_rate = p.tax_rate ∧ d.tax = p.tax ∧ d.total = p.total
    ∧ d.items.map (·.total) = p.items.map (·.total)
    ∧ 1 ≤ d.items.length
    ∧ 0 ≤ d.tax_rate ∧ d.tax_rate ≤ 1
    ∧ |sumItemTotals d.items - d.subtotal| ≤ 1/100
    ∧ |d.subtotal * d.tax_rate - d.tax| ≤ 1
    ∧ |d.subtotal + d.tax - d.total| ≤ 5 := by
  obtain ⟨billing, shipping, items, hb, hs, hi, hc⟩ := mkInvoiceData_ok_elim h
  obtain ⟨hitems, hsub, hrate, htax, htot, hlen, hr0, hr1, t1, t2, t3⟩ :=
    mkInvoiceChecks_ok_spec hc
  obtain ⟨httot, hllen⟩ := mkItems_ok_totals hi
  subst hitems
  rw [hsub, hrate, htax, htot]
  exact ⟨rfl, rfl, rfl, rfl, httot, hlen, hr0, hr1, t1, t2, t3⟩

/-! ## Claim theorems -/

/-- C1: for every `InvoiceData` construction payload, construction succeeds
only if the three aggregate identities hold within their tolerances
(|subtotal − Σ item.total| ≤ 0.01, |tax − subtotal×tax_rate| ≤ 1.00,
|total − (subtotal+tax)| ≤ 5.00); a payload exceeding any tolerance fails
construction with an error naming both the stored and the recomputed value;
in particular subtotal=100, tax=8, total=200 fails with
|200 − 108| = 92 > 5. -/
theorem construction_aggregate_tolerances :
    (∀ p d, mkInvoiceData p = .ok d →
        |sumItemTotals d.items - d.subtotal| ≤ 1/100
        ∧ |d.subtotal * d.tax_rate - d.tax| ≤ 1
        ∧ |d.subtotal + d.tax - d.total| ≤ 5)
    ∧ (∀ p, 1/100 < |payloadSubtotalCalc p - p.subtotal| → ∀ d, mkInvoiceData p ≠ .ok d)
    ∧ (∀ p, 1 < |p.subtotal * p.tax_rate - p.tax| → ∀ d, mkInvoiceData p ≠ .ok d)
    ∧ (∀ p, 5 < |p.subtotal + p.tax - p.total| → ∀ d, mkInvoiceData p ≠ .ok d)
    ∧ (∀ p st c, mkInvoiceData p = .error (.subtotalMismatch st c) →
        st = p.subtotal ∧ c = payloadSubtotalCalc p)
    ∧ (∀ p st c, mkInvoiceData p = .error (.taxMismatch st c) →
        st = p.tax ∧ c = p.subtotal * p.tax_rate)
    ∧ (∀ p st c, mkInvoiceData p = .error (.totalMismatch st c) →
        st = p.total ∧ c = p.subtotal + p.tax)
    ∧ mkInvoiceData scCPayload = .error (.totalMismatch 200 108) := by
  have hsum : ∀ (p : InvoicePayload) (d : InvoiceData), mkInvoiceData p = .ok d →
      sumItemTotals d.items = payloadSubtotalCalc p := by
    intro p d h
    unfold sumItemTotals payloadSubtotalCalc
    rw [(mkInvoiceData_ok_spec h).2.2.2.2.1]
  refine ⟨?_, ?_, ?_, ?_, ?_, ?_, ?_, by with_unfolding_all decide⟩
  · intro p d h
    obtain ⟨_, _, _, _, _, _, _, _, t1, t2, t3⟩ := mkInvoiceData_ok_spec h
    exact ⟨t1, t2, t3⟩
  · intro p hgt d h
    obtain ⟨hs, _, _, _, _, _, _, _, t1, _, _⟩ := mkInvoiceData_ok_spec h
    rw [hsum p d h, hs] at t1
    linarith
  · intro p hgt d h
    obtain ⟨hs, hr, ht, _, _, _, _, _, _, t2, _⟩ := mkInvoiceData_ok_spec h
    rw [hs, hr, ht] at t2
    linarith
  · intro p hgt d h
    obtain ⟨hs, _, ht, hto, _, _, _, _, _, _, t3⟩ := mkInvoiceData_ok_spec h
    rw [hs, ht, hto] at t3
    linarith
  · intro p st c h
    rcases mkInvoiceData_error_elim h with hph | ⟨q, _, hq⟩ | ⟨b, s, items, hi, hc⟩
    · exact absurd hph (by simp)
    · rcases mkInvoiceItem_error_shape hq with ⟨f, hf⟩ | ⟨s₀, c₀, hf⟩ <;> simp at hf
    · obtain ⟨hst, hcc⟩ := (mkInvoiceChecks_error_shape hc).1 st c rfl
      refine ⟨hst, ?_⟩
      rw [hcc]
      unfold sumItemTotals payloadSubtotalCalc
      rw [(mkItems_ok_totals hi).1]
  · intro p st c h
    rcases mkInvoiceData_error_elim h with hph | ⟨q, _, hq⟩ | ⟨b, s, items, hi, hc⟩
    · exact absurd hph (by simp)
    · rcases mkInvoiceItem_error_shape hq with ⟨f, hf⟩ | ⟨s₀, c₀, hf⟩ <;> simp at hf
    · exact (mkInvoiceChecks_error_shape hc).2.1 st c rfl
  · intro p st c h
    rcases mkInvoiceData_error_elim h with hph | ⟨q, _, hq⟩ | ⟨b, s, items, hi, hc⟩
    · exact absurd hph (by simp)
    · rcases mkInvoiceItem_error_shape hq with ⟨f, hf⟩ | ⟨s₀, c₀, hf⟩ <;> simp at hf
    · exact (mkInvoiceChecks_error_shape hc).2.2 st c rfl

/-- Witness for C1: the success direction applied to the Scenario B
payload. -/
theorem construction_aggregate_tolerances_witness :
    |sumItemTotals exampleInvoice.items - exampleInvoice.subtotal| ≤ 1/100
    ∧ |exampleInvoice.subtotal * exampleInvoice.tax_rate - exampleInvoice.tax| ≤ 1
    ∧ |exampleInvoice.subtotal + exampleInvoice.tax - exampleInvoice.total| ≤ 5 :=
  construction_aggregate_tolerances.1 examplePayload exampleInvoice (by with_unfolding_all decide)

/-- C4: for every line-item construction payload, construction succeeds
only if |total − quantity×unit_price| ≤ 0.01, and every payload beyond the
tolerance fails construction; in particular quantity=3, unit_price=10 with
total=31 fails while total=30 succeeds. -/
theorem line_item_construction_tolerance :
    (∀ p : InvoiceItemPayload, (∃ it, mkInvoiceItem p = .ok it) →
        |(p.quantity : ℚ) * p.unit_price - p.total| ≤ 1/100)
    ∧ (∀ p : InvoiceItemPayload, 1/100 < |(p.quantity : ℚ) * p.unit_price - p.total| →
        ∀ it, mkInvoiceItem p ≠ .ok it)
    ∧ mkInvoiceItem ⟨"", "", "", 3, 10, 31⟩ = .error (.itemTotalMismatch 31 30)
    ∧ mkInvoiceItem ⟨"", "", "", 3, 10, 30⟩ = .ok ⟨"", "", "", 3, 10, 30⟩ := by
  refine ⟨?_, ?_, by with_unfolding_all decide, by with_unfolding_all decide⟩
  · rintro p ⟨it, h⟩
    exact (mkInvoiceItem_ok_spec h).2
  · intro p hgt it h
    have := (mkInvoiceItem_ok_spec h).2
    linarith

/-- Witness for C4: the success direction applied to the consistent
Scenario A item. -/
theorem line_item_construction_tolerance_witness :
    |((3 : ℤ) : ℚ) * 10 - 30| ≤ 1/100 :=
  line_item_construction_tolerance.1 ⟨"", "", "", 3, 10, 30⟩
    ⟨⟨"", "", "", 3, 10, 30⟩, by with_unfolding_all decide⟩

/-- C7: every validly constructed `InvoiceData` gets confidence score
exactly 1: the guaranteed signals (non-empty item list +0.2, non-negative
tax rate +0.1, positive item count +0.1) already raise the 0.8 base to at
least 1.2 before the cap. -/
theorem validated_invoice_confidence_one :
    ∀ p d, mkInvoiceData p = .ok d → calculate_confidence_score d = 1 := by
  intro p d h
  obtain ⟨_, _, _, _, _, hlen, hr0, _, _, _, _⟩ := mkInvoiceData_ok_spec h
  have hne : d.items ≠ [] := by
    intro hnil
    rw [hnil] at hlen
    simp at hlen
  unfold calculate_confidence_score
  rw [if_pos hne, if_pos hr0, if_pos (List.length_pos.mpr hne)]
  have b1 : (0:ℚ) ≤ if d.invoice_number ≠ "" then (1:ℚ)/10 else 0 := by split <;> norm_num
  have b2 : (0:ℚ) ≤ if d.customer_name ≠ "" then (1:ℚ)/10 else 0 := by split <;> norm_num
  have b4 : (0:ℚ) ≤ if d.billing_address.street ≠ "" ∧ d.billing_address.city ≠ ""
      then (1:ℚ)/10 else 0 := by split <;> norm_num
  have b5 : (0:ℚ) ≤ if 0 < d.subtotal then (1:ℚ)/10 else 0 := by split <;> norm_num
  have b6 : (0:ℚ) ≤ if 0 < d.total then (1:ℚ)/10 else 0 := by split <;> norm_num
  have b8 : (0:ℚ) ≤ if d.invoice_date.isSome then (1:ℚ)/10 else 0 := by split <;> norm_num
  have b10 : (0:ℚ) ≤ if d.items.all itemComplete then (1:ℚ)/10 else 0 := by split <;> norm_num
  exact min_eq_right (by linarith)

/-- Witness for C7: the constant score at the Scenario B invoice. -/
theorem validated_invoice_confidence_one_witness :
    calculate_confidence_score exampleInvoice = 1 :=
  validated_invoice_confidence_one examplePayload exampleInvoice (by with_unfolding_all decide)

/-- C8 counterexample: the claim "any field reassignment re-validates the
whole object" is false.  `exampleInvoice` is validly constructed, the
assignment `tax_rate := 1` succeeds (its `ge=0, le=1` constraints hold),
yet the resulting object violates the tax invariant:
|100×1 − 8| = 92 > 1.00. -/
theorem assignment_whole_object_revalidation_false :
    mkInvoiceData examplePayload = .ok exampleInvoice
    ∧ assign_tax_rate exampleInvoice 1 = .ok exampleInvoiceRateOne
    ∧ ¬ InvoiceInvariants exampleInvoiceRateOne :=
  ⟨by with_unfolding_all decide, by with_unfolding_all decide,
   by with_unfolding_all decide⟩

/-- C8 amended: a single-field reassignment re-validates only the assigned
field — its own constraints and its own validators, evaluated against the
current values of the other fields.  Assignments to `subtotal`, `tax` and
`total` therefore enforce the corresponding cross-field tolerance, while
assignments to `tax_rate` and `items` enforce only their local constraints
and can leave the object violating invariants that involve other fields. -/
theorem assignment_revalidates_assigned_field :
    (∀ d v d', assign_subtotal d v = .ok d' →
        d' = { d with subtotal := v } ∧ 0 ≤ v ∧ |sumItemTotals d.items - v| ≤ 1/100)
    ∧ (∀ d v d', assign_tax d v = .ok d' →
        d' = { d with tax := v } ∧ 0 ≤ v ∧ |d.subtotal * d.tax_rate - v| ≤ 1)
    ∧ (∀ d v d', assign_total d v = .ok d' →
        d' = { d with total := v } ∧ 0 ≤ v ∧ |d.subtotal + d.tax - v| ≤ 5)
    ∧ (∀ d v d', assign_tax_rate d v = .ok d' →
        d' = { d with tax_rate := v } ∧ 0 ≤ v ∧ v ≤ 1)
    ∧ (∀ d l d', assign_items d l = .ok d' →
        d' = { d with items := l } ∧ 1 ≤ l.length) := by
  refine ⟨?_, ?_, ?_, ?_, ?_⟩
  · intro d v d' h
    unfold assign_subtotal at h
    split_ifs at h with h1 h2
    rw [Except.ok.injEq] at h
    refine ⟨h.symm, not_lt.mp (by simpa using h1), ?_⟩
    rw [← ratAbs_eq_abs]
    exact not_lt.mp h2
  · intro d v d' h
    unfold assign_tax at h
    split_ifs at h with h1 h2
    rw [Except.ok.injEq] at h
    refine ⟨h.symm, not_lt.mp (by simpa using h1), ?_⟩
    rw [← ratAbs_eq_abs]
    exact not_lt.mp h2
  · intro d v d' h
    unfold assign_total at h
    split_ifs at h with h1 h2
    rw [Except.ok.injEq] at h
    refine ⟨h.symm, not_lt.mp (by simpa using h1), ?_⟩
    rw [← ratAbs_eq_abs]
    exact not_lt.mp h2
  · intro d v d' h
    unfold assign_tax_rate at h
    split_ifs at h with h1
    rw [Except.ok.injEq] at h
    push_neg at h1
    exact ⟨h.symm, h1.1, h1.2⟩
  · intro d l d' h
    unfold assign_items at h
    split_ifs at h with h1
    rw [Except.ok.injEq] at h
    exact ⟨h.symm, by omega⟩

/-- Witness for the amended C8: the `tax_rate` assignment of the
counterexample, seen through the amended statement. -/
theorem assignment_revalidates_assigned_field_witness :
    exampleInvoiceRateOne = { exampleInvoice with tax_rate := 1 }
    ∧ (0:ℚ) ≤ 1 ∧ (1:ℚ) ≤ 1 :=
  assignment_revalidates_assigned_field.2.2.2.1 exampleInvoice 1 exampleInvoiceRateOne
    (by with_unfolding_all decide)

/-- C5: `extract_invoice_data` always returns an `ExtractionResult` and
never raises past its boundary: it is total over every environment, every
failure environment (missing file, model call error, `None` parse, payload
violating construction invariants) yields `success=false` with a non-empty
error message, and the result always carries the elapsed time measured
from the call's start, strictly positive whenever the call consumed time. -/
theorem extraction_total_failure_shape :
    ∀ env document_id, 0 < env.elapsed →
      (extract_invoice_data env document_id).processing_time = some env.elapsed
      ∧ ((extract_invoice_data env document_id).success = false →
          (∃ m, (extract_invoice_data env document_id).error_message = some m ∧ m ≠ "")
          ∧ ∃ t, (extract_invoice_data env document_id).processing_time = some t ∧ 0 < t)
      ∧ ((env.fileExists = false
            ∨ (∃ m, env.modelOutcome = .apiError m)
            ∨ env.modelOutcome = .parsedNone
            ∨ (∃ p e, env.modelOutcome = .parsed p ∧ mkInvoiceData p = .error e)) →
          (extract_invoice_data env document_id).success = false) := by
  have hne : ∀ msg : String, "Failed to extract invoice data: " ++ msg ≠ "" := by
    intro msg hcontra
    have hlen := congrArg String.length hcontra
    rw [String.length_append] at hlen
    have hpos : 0 < ("Failed to extract invoice data: " : String).length := by
      with_unfolding_all decide
    have h0 : ("" : String).length = 0 := rfl
    rw [h0] at hlen
    omega
  rintro ⟨fe, mo, st, el⟩ document_id helapsed
  cases fe with
  | false =>
      exact ⟨rfl, fun _ => ⟨⟨_, rfl, hne _⟩, ⟨el, rfl, helapsed⟩⟩, fun _ => rfl⟩
  | true =>
      cases mo with
      | apiError m =>
          exact ⟨rfl, fun _ => ⟨⟨_, rfl, hne _⟩, ⟨el, rfl, helapsed⟩⟩, fun _ => rfl⟩
      | parsedNone =>
          exact ⟨rfl, fun _ => ⟨⟨_, rfl, hne _⟩, ⟨el, rfl, helapsed⟩⟩, fun _ => rfl⟩
      | parsed p =>
          have hred : extract_invoice_data ⟨true, .parsed p, st, el⟩ document_id =
              (match mkInvoiceData p with
               | .error e => failureResult ⟨true, .parsed p, st, el⟩ document_id e.message
               | .ok d =>
                  { document_id := document_id
                    extraction_id := "extract_" ++ document_id ++ "_" ++ toString st
                    success := true
                    extracted_data := some d
                    confidence_score := some (calculate_confidence_score d)
                    processing_time := some el
                    error_message := none }) := rfl
          rw [hred]
          cases hmk : mkInvoiceData p with
          | error e =>
              exact ⟨rfl, fun _ => ⟨⟨_, rfl, hne _⟩, ⟨el, rfl, helapsed⟩⟩, fun _ => rfl⟩
          | ok d =>
              refine ⟨rfl, fun hfalse => absurd hfalse (by simp), ?_⟩
              rintro (hc | ⟨m, hc⟩ | hc | ⟨p₀, e₀, hc, hmk₀⟩)
              · exact absurd hc (by simp)
              · exact absurd hc (by simp)
              · exact absurd hc (by simp)
              · rw [ModelOutcome.parsed.injEq] at hc
                subst hc
                rw [hmk] at hmk₀
                exact absurd hmk₀ (by simp)

/-- Witness for C5: a missing-file environment with one second of elapsed
time yields a failure result with the elapsed time recorded. -/
theorem extraction_total_failure_shape_witness :
    (extract_invoice_data ⟨false, .parsedNone, 0, 1⟩ "doc1").processing_time = some 1
    ∧ (extract_invoice_data ⟨false, .parsedNone, 0, 1⟩ "doc1").success = false :=
  ⟨(extraction_total_failure_shape ⟨false, .parsedNone, 0, 1⟩ "doc1" (by norm_num)).1,
   (extraction_total_failure_shape ⟨false, .parsedNone, 0, 1⟩ "doc1" (by norm_num)).2.2
     (Or.inl rfl)⟩

/-- C10: batch extraction appends exactly one entry per document id, in
input order; each entry depends only on that document's own outcome, so one
document's failure cannot abort or alter the others; an unknown id is
reported as "Document not found"; and the summary satisfies
successful + failed = total = length of the input list. -/
theorem batch_isolated_entries_and_counts :
    (∀ env ids, (extract_batch_documents env ids).1 = ids.map (batchEntryFor env))
    ∧ (∀ env env' id, env id = env' id → batchEntryFor env id = batchEntryFor env' id)
    ∧ (∀ env id, env id = .notFound →
        batchEntryFor env id = ⟨id, false, none, none, some "Document not found"⟩)
    ∧ (∀ env ids,
        (extract_batch_documents env ids).2.successful + (extract_batch_documents env ids).2.failed
          = (extract_batch_documents env ids).2.total_processed
        ∧ (extract_batch_documents env ids).2.total_processed = ids.length) := by
  refine ⟨fun env ids => rfl, ?_, ?_, ?_⟩
  · intro env env' id h
    unfold batchEntryFor
    rw [h]
  · intro env id h
    unfold batchEntryFor
    rw [h]
  · intro env ids
    unfold extract_batch_documents
    have hle : ((ids.map (batchEntryFor env)).filter (·.success)).length
        ≤ (ids.map (batchEntryFor env)).length := List.length_filter_le _ _
    constructor
    · simpa using Nat.add_sub_cancel' hle
    · simp

/-- Witness for C10: the Scenario E batch — three ids, the second unknown —
through the isolation/counting theorem plus a concrete evaluation showing 2
successful and 1 failed. -/
theorem batch_isolated_entries_and_counts_witness :
    batchEntryFor (fun id => if id = "doc2" then .notFound else .saved ("inv_" ++ id) (some 1)) "doc2"
      = ⟨"doc2", false, none, none, some "Document not found"⟩
    ∧ (extract_batch_documents
        (fun id => if id = "doc2" then .notFound else .saved ("inv_" ++ id) (some 1))
        ["doc1", "doc2", "doc3"]).2 = ⟨3, 2, 1⟩ :=
  ⟨batch_isolated_entries_and_counts.2.2.1 _ "doc2" (by with_unfolding_all decide),
   by with_unfolding_all decide⟩

theorem cond_rat_le {b c : Bool} (h : b = true → c = true) {x : ℚ} (hx : 0 ≤ x) :
    (if b then x else 0) ≤ (if c then x else 0) := by
  cases b <;> cases c <;> simp_all

theorem cond_rat_nonneg (b : Bool) {x : ℚ} (hx : 0 ≤ x) :
    (0:ℚ) ≤ if b then x else 0 := by
  cases b <;> simp [hx]

theorem signalIncrements_nonneg (s : ConfidenceSignals) : 0 ≤ signalIncrements s := by
  unfold signalIncrements
  refine add_nonneg (add_nonneg (add_nonneg (add_nonneg (add_nonneg (add_nonneg
    (add_nonneg (add_nonneg (add_nonneg
      (cond_rat_nonneg _ (by norm_num)) (cond_rat_nonneg _ (by norm_num)))
      (cond_rat_nonneg _ (by norm_num))) (cond_rat_nonneg _ (by norm_num)))
      (cond_rat_nonneg _ (by norm_num))) (cond_rat_nonneg _ (by norm_num)))
      (cond_rat_nonneg _ (by norm_num))) (cond_rat_nonneg _ (by norm_num)))
      (cond_rat_nonneg _ (by norm_num))) (cond_rat_nonneg _ (by norm_num))

/-- C6: the confidence score equals `min (0.8 + increments, 1.0)` where the
increments are exactly the ten completeness signals read off the data (0.1
each, the items-truthiness signal counting 0.2); consequently the score
always lies in [0, 1] and is monotonically non-decreasing in the signals
while the others are held fixed. -/
theorem confidence_score_formula_bounds_monotone :
    (∀ d, calculate_confidence_score d = scoreOfSignals (signalsOf d))
    ∧ (∀ s, scoreOfSignals s = min (8/10 + signalIncrements s) 1)
    ∧ (∀ d, 0 ≤ calculate_confidence_score d ∧ calculate_confidence_score d ≤ 1)
    ∧ (∀ s t, SignalsLE s t → scoreOfSignals s ≤ scoreOfSignals t) := by
  have hbridge : ∀ d, calculate_confidence_score d = scoreOfSignals (signalsOf d) := by
    intro d
    simp [calculate_confidence_score, scoreOfSignals, signalIncrements, signalsOf,
      decide_eq_true_eq]
  have hmono : ∀ s t, SignalsLE s t → scoreOfSignals s ≤ scoreOfSignals t := by
    intro s t hle
    obtain ⟨l1, l2, l3, l4, l5, l6, l7, l8, l9, l10⟩ := hle
    unfold scoreOfSignals
    refine min_le_min (add_le_add_left ?_ _) le_rfl
    unfold signalIncrements
    exact add_le_add (add_le_add (add_le_add (add_le_add (add_le_add (add_le_add
      (add_le_add (add_le_add (add_le_add
        (cond_rat_le l1 (by norm_num)) (cond_rat_le l2 (by norm_num)))
        (cond_rat_le l3 (by norm_num))) (cond_rat_le l4 (by norm_num)))
        (cond_rat_le l5 (by norm_num))) (cond_rat_le l6 (by norm_num)))
        (cond_rat_le l7 (by norm_num))) (cond_rat_le l8 (by norm_num)))
        (cond_rat_le l9 (by norm_num))) (cond_rat_le l10 (by norm_num))
  refine ⟨hbridge, fun s => rfl, ?_, hmono⟩
  intro d
  rw [hbridge d]
  unfold scoreOfSignals
  constructor
  · exact le_min (by linarith [signalIncrements_nonneg (signalsOf d)]) (by norm_num)
  · exact min_le_right _ _

/-- Witness for C6: monotonicity applied to the all-false and all-true
signal vectors. -/
theorem confidence_score_formula_bounds_monotone_witness :
    scoreOfSignals ⟨false, false, false, false, false, false, false, false, false, false⟩
      ≤ scoreOfSignals ⟨true, true, true, true, true, true, true, true, true, true⟩ :=
  confidence_score_formula_bounds_monotone.2.2.2 _ _ (by decide)

theorem vStep_none (r : VReport) (f : VReport → VReport × Option PyErr) :
    vStep (r, none) f = f r := rfl

theorem vStep_some (r : VReport) (e : PyErr) (f : VReport → VReport × Option PyErr) :
    vStep (r, some e) f = (r, some e) := rfl

theorem pySumAux_typed (items : List TItem) :
    ∀ acc, pySumAux acc ((items.map TItem.toRaw).map (·.total))
      = .ok (acc + (items.map (·.total)).sum) := by
  induction items with
  | nil => intro acc; simp [pySumAux]
  | cons it rest ih =>
      intro acc
      have hred : pySumAux acc (((it :: rest).map TItem.toRaw).map (·.total))
          = pySumAux (acc + it.total) ((rest.map TItem.toRaw).map (·.total)) := rfl
      rw [hred, ih, List.map_cons, List.sum_cons, add_assoc]

theorem pySum_typed (items : List TItem) :
    pySum ((items.map TItem.toRaw).map (·.total)) = .ok ((items.map (·.total)).sum) := by
  have := pySumAux_typed items 0
  simpa [pySum] using this

theorem checkSubtotal_typed (t : TInvoice) (r : VReport) :
    checkSubtotal (TInvoice.toRaw t) r =
      ({ r with warnings := r.warnings ++
          (if ratAbs ((t.items.map (·.total)).sum - t.subtotal) > 1/100 then
            [.subtotalMismatch ((t.items.map (·.total)).sum) t.subtotal] else []) }, none) := by
  obtain ⟨inv, cust, items, sub, rate, tax, tot⟩ := t
  unfold checkSubtotal TInvoice.toRaw
  rw [show (⟨inv, cust, items.map TItem.toRaw, .num sub, .num rate, .num tax, .num tot⟩ :
      RawInvoice).items = items.map TItem.toRaw from rfl]
  rw [pySum_typed]
  dsimp only [PyNum.toQ]
  split_ifs <;> simp

theorem checkTax_typed (t : TInvoice) (r : VReport) :
    checkTax (TInvoice.toRaw t) r =
      ({ r with warnings := r.warnings ++
          (if ratAbs (t.subtotal * t.tax_rate - t.tax) > 1/100 then
            [.taxMismatch (t.subtotal * t.tax_rate) t.tax] else []) }, none) := by
  obtain ⟨inv, cust, items, sub, rate, tax, tot⟩ := t
  unfold checkTax TInvoice.toRaw
  dsimp only [PyNum.toQ]
  split_ifs <;> simp

theorem checkTotal_typed (t : TInvoice) (r : VReport) :
    checkTotal (TInvoice.toRaw t) r =
      ({ r with
          errors := r.errors ++
            (if ratAbs (t.subtotal + t.tax - t.total) > 1/100 then
              [.totalMismatch (t.subtotal + t.tax) t.total] else [])
          is_valid :=
            if ratAbs (t.subtotal + t.tax - t.total) > 1/100 then false
            else r.is_valid }, none) := by
  obtain ⟨inv, cust, items, sub, rate, tax, tot⟩ := t
  unfold checkTotal TInvoice.toRaw
  dsimp only [PyNum.toQ]
  split_ifs <;> simp

theorem lineChecksAux_typed (items : List TItem) :
    ∀ (i : ℕ) (r : VReport),
      lineChecksAux (items.map TItem.toRaw) i r
        = ({ r with warnings := r.warnings ++ lineWarnAux items i }, none) := by
  induction items with
  | nil => intro i r; simp [lineChecksAux, lineWarnAux]
  | cons it rest ih =>
      intro i r
      have hred : lineChecksAux ((it :: rest).map TItem.toRaw) i r
          = lineChecksAux (rest.map TItem.toRaw) (i + 1)
              (if ratAbs ((it.quantity : ℚ) * it.unit_price - it.total) > 1/100 then
                { r with warnings := r.warnings ++
                    [.lineMismatch (i + 1) it.quantity it.unit_price
                      ((it.quantity : ℚ) * it.unit_price) it.total] }
              else r) := rfl
      have hw : lineWarnAux (it :: rest) i
          = (if ratAbs ((it.quantity : ℚ) * it.unit_price - it.total) > 1/100 then
              [.lineMismatch (i + 1) it.quantity it.unit_price
                ((it.quantity : ℚ) * it.unit_price) it.total]
            else []) ++ lineWarnAux rest (i + 1) := rfl
      rw [hred, hw]
      split_ifs with hmis <;> rw [ih] <;> simp

theorem checkCritical_typed (t : TInvoice) (r : VReport) :
    checkCritical (TInvoice.toRaw t) r =
      { is_valid :=
          if t.invoice_number = "" ∨ t.customer_name = "" ∨ t.items = [] then false
          else r.is_valid
        warnings := r.warnings
        errors := r.errors ++
          ((if t.invoice_number = "" then [.missingInvoiceNumber] else [])
           ++ ((if t.customer_name = "" then [.missingCustomerName] else [])
           ++ (if t.items = [] then [.noItems] else [])))
        suggestions := r.suggestions } := by
  obtain ⟨inv, cust, items, sub, rate, tax, tot⟩ := t
  unfold checkCritical TInvoice.toRaw
  dsimp only
  simp only [List.map_eq_nil_iff]
  split_ifs <;> simp_all [List.append_assoc]

set_option maxHeartbeats 1000000 in
theorem validate_extraction_typed (t : TInvoice) :
    validate_extraction (TInvoice.toRaw t) = typedReport t := by
  unfold validate_extraction validateChain
  rw [checkSubtotal_typed, vStep_none]
  dsimp only
  rw [checkTax_typed, vStep_none]
  dsimp only
  rw [checkTotal_typed, vStep_none]
  dsimp only
  rw [show (TInvoice.toRaw t).items = t.items.map TItem.toRaw from rfl]
  rw [lineChecksAux_typed, vStep_none]
  dsimp only
  rw [checkCritical_typed]
  unfold typedReport
  dsimp only
  simp only [VReport.mk.injEq]
  refine ⟨?_, ?_, ?_, trivial⟩
  · split_ifs <;> tauto
  · simp [List.append_assoc]
  · simp [List.append_assoc]

/-- C2: on every well-typed invoice, the validator classifies findings by
severity: a subtotal mismatch beyond 0.01 and a tax mismatch beyond 0.01
are warnings; a total mismatch beyond 0.01 is a blocking error; missing
invoice number, missing customer name, or an empty item list are always
blocking errors; and `is_valid` is false exactly when a blocking condition
holds — warnings never affect it. -/
theorem validator_severity_classification (t : TInvoice) :
    ((validate_extraction (TInvoice.toRaw t)).is_valid = false ↔
       (1/100 < |t.subtotal + t.tax - t.total| ∨ t.invoice_number = ""
        ∨ t.customer_name = "" ∨ t.items = []))
    ∧ (1/100 < |(t.items.map (·.total)).sum - t.subtotal| →
        VMsg.subtotalMismatch ((t.items.map (·.total)).sum) t.subtotal
          ∈ (validate_extraction (TInvoice.toRaw t)).warnings)
    ∧ (1/100 < |t.subtotal * t.tax_rate - t.tax| →
        VMsg.taxMismatch (t.subtotal * t.tax_rate) t.tax
          ∈ (validate_extraction (TInvoice.toRaw t)).warnings)
    ∧ (1/100 < |t.subtotal + t.tax - t.total| →
        VMsg.totalMismatch (t.subtotal + t.tax) t.total
          ∈ (validate_extraction (TInvoice.toRaw t)).errors)
    ∧ (t.invoice_number = "" →
        VMsg.missingInvoiceNumber ∈ (validate_extraction (TInvoice.toRaw t)).errors)
    ∧ (t.customer_name = "" →
        VMsg.missingCustomerName ∈ (validate_extraction (TInvoice.toRaw t)).errors)
    ∧ (t.items = [] →
        VMsg.noItems ∈ (validate_extraction (TInvoice.toRaw t)).errors) := by
  rw [validate_extraction_typed]
  unfold typedReport
  dsimp only
  simp only [ratAbs_eq_abs, gt_iff_lt]
  refine ⟨?_, ?_, ?_, ?_, ?_, ?_, ?_⟩
  · split_ifs with h
    · simpa [one_div] using h
    · exact (iff_false_intro h).symm
  · intro h
    rw [one_div] at h
    simp [List.mem_append, h]
  · intro h
    rw [one_div] at h
    simp [List.mem_append, h]
  · intro h
    rw [one_div] at h
    simp [List.mem_append, h]
  · intro h; simp [List.mem_append, h]
  · intro h; simp [List.mem_append, h]
  · intro h; simp [List.mem_append, h]

/-- Witness for C2: the missing-invoice-number blocking error at a concrete
input. -/
theorem validator_severity_classification_witness :
    VMsg.missingInvoiceNumber ∈ (validate_extraction (TInvoice.toRaw tMissingInv)).errors :=
  (validator_severity_classification tMissingInv).2.2.2.2.1 rfl

/-! ## Exception safety of the validator (C3) -/

theorem validate_extraction_catch (d : RawInvoice) (r : VReport) (e : PyErr)
    (h : validateChain d = (r, some e)) :
    validate_extraction d
      = { r with is_valid := false, errors := r.errors ++ [.validationError e] } := by
  unfold validate_extraction
  rw [h]

theorem validate_extraction_none (d : RawInvoice) (r : VReport)
    (h : validateChain d = (r, none)) : validate_extraction d = r := by
  unfold validate_extraction
  rw [h]

theorem checkSubtotal_fst (d : RawInvoice) (r : VReport) :
    (checkSubtotal d r).1.is_valid = r.is_valid ∧ (checkSubtotal d r).1.errors = r.errors := by
  unfold checkSubtotal
  split
  · exact ⟨rfl, rfl⟩
  · split
    · exact ⟨rfl, rfl⟩
    · split_ifs <;> exact ⟨rfl, rfl⟩

theorem checkTax_fst (d : RawInvoice) (r : VReport) :
    (checkTax d r).1.is_valid = r.is_valid ∧ (checkTax d r).1.errors = r.errors := by
  unfold checkTax
  split
  · exact ⟨rfl, rfl⟩
  · split
    · exact ⟨rfl, rfl⟩
    · split
      · exact ⟨rfl, rfl⟩
      · split_ifs <;> exact ⟨rfl, rfl⟩

theorem checkTotal_reportOk (d : RawInvoice) (r : VReport) (h : ReportOk r) :
    ReportOk (checkTotal d r).1 := by
  unfold checkTotal
  split
  · exact h
  · split
    · exact h
    · split
      · exact h
      · split_ifs with hc
        · simp [ReportOk]
        · exact h

theorem lineChecksAux_fst (items : List RawItem) :
    ∀ (i : ℕ) (r : VReport),
      (lineChecksAux items i r).1.is_valid = r.is_valid
      ∧ (lineChecksAux items i r).1.errors = r.errors := by
  induction items with
  | nil => intro i r; exact ⟨rfl, rfl⟩
  | cons item rest ih =>
      intro i r
      unfold lineChecksAux
      split
      · exact ⟨rfl, rfl⟩
      · split
        · exact ⟨rfl, rfl⟩
        · constructor
          · rw [(ih _ _).1]; split_ifs <;> rfl
          · rw [(ih _ _).2]; split_ifs <;> rfl

theorem checkCritical_reportOk (d : RawInvoice) (r : VReport) (h : ReportOk r) :
    ReportOk (checkCritical d r) := by
  unfold checkCritical
  dsimp only
  split_ifs <;> simp_all [ReportOk]

theorem checkCritical_empty_items (d : RawInvoice) (r : VReport) (hitems : d.items = []) :
    (checkCritical d r).is_valid = false ∧ (checkCritical d r).errors ≠ [] := by
  unfold checkCritical
  dsimp only
  split_ifs <;> simp_all

theorem validate_extraction_wellformed (d : RawInvoice) :
    ReportOk (validate_extraction d)
    ∧ (d.items = [] →
        (validate_extraction d).is_valid = false ∧ (validate_extraction d).errors ≠ []) := by
  have h0 : ReportOk (⟨true, [], [], []⟩ : VReport) := by simp [ReportOk]
  rcases h1 : checkSubtotal d ⟨true, [], [], []⟩ with ⟨r1, e1⟩
  have hr1 : ReportOk r1 := by
    have hf := checkSubtotal_fst d ⟨true, [], [], []⟩
    rw [h1] at hf
    show r1.is_valid = false ↔ r1.errors ≠ []
    rw [hf.1, hf.2]
    exact h0
  cases e1 with
  | some e =>
      have hch : validateChain d = (r1, some e) := by
        unfold validateChain
        rw [h1, vStep_some, vStep_some, vStep_some, vStep_some]
      rw [validate_extraction_catch d r1 e hch]
      exact ⟨by simp [ReportOk], fun _ => by simp⟩
  | none =>
      rcases h2 : checkTax d r1 with ⟨r2, e2⟩
      have hr2 : ReportOk r2 := by
        have hf := checkTax_fst d r1
        rw [h2] at hf
        show r2.is_valid = false ↔ r2.errors ≠ []
        rw [hf.1, hf.2]
        exact hr1
      cases e2 with
      | some e =>
          have hch : validateChain d = (r2, some e) := by
            unfold validateChain
            rw [h1, vStep_none, h2, vStep_some, vStep_some, vStep_some]
          rw [validate_extraction_catch d r2 e hch]
          exact ⟨by simp [ReportOk], fun _ => by simp⟩
      | none =>
          rcases h3 : checkTotal d r2 with ⟨r3, e3⟩
          have hr3 : ReportOk r3 := by
            have := checkTotal_reportOk d r2 hr2
            rw [h3] at this
            exact this
          cases e3 with
          | some e =>
              have hch : validateChain d = (r3, some e) := by
                unfold validateChain
                rw [h1, vStep_none, h2, vStep_none, h3, vStep_some, vStep_some]
              rw [validate_extraction_catch d r3 e hch]
              exact ⟨by simp [ReportOk], fun _ => by simp⟩
          | none =>
              rcases h4 : lineChecksAux d.items 0 r3 with ⟨r4, e4⟩
              have hr4 : ReportOk r4 := by
                have hf := lineChecksAux_fst d.items 0 r3
                rw [h4] at hf
                show r4.is_valid = false ↔ r4.errors ≠ []
                rw [hf.1, hf.2]
                exact hr3
              cases e4 with
              | some e =>
                  have hch : validateChain d = (r4, some e) := by
                    unfold validateChain
                    rw [h1, vStep_none, h2, vStep_none, h3, vStep_none, h4, vStep_some]
                  rw [validate_extraction_catch d r4 e hch]
                  exact ⟨by simp [ReportOk], fun _ => by simp⟩
              | none =>
                  have hch : validateChain d = (checkCritical d r4, none) := by
                    unfold validateChain
                    rw [h1, vStep_none, h2, vStep_none, h3, vStep_none, h4, vStep_none]
                  rw [validate_extraction_none d _ hch]
                  exact ⟨checkCritical_reportOk d r4 hr4,
                         fun hempty => checkCritical_empty_items d r4 hempty⟩

/-- C3: the consistency validator never lets an exception escape: it is a
total function always returning a report with the `is_valid` flag and the
warnings/errors/suggestions lists; `is_valid` is false exactly when an
error was recorded; a syntactically valid zero-item input passed directly
(bypassing construction) degrades to a reported error with
`is_valid=false`; and any internal exception is caught and appended to the
errors list as a `Validation error` entry together with `is_valid=false`. -/
theorem validator_never_raises (d : RawInvoice) :
    ((validate_extraction d).is_valid = false ↔ (validate_extraction d).errors ≠ [])
    ∧ (d.items = [] →
        (validate_extraction d).is_valid = false ∧ (validate_extraction d).errors ≠ [])
    ∧ (∀ r e, validateChain d = (r, some e) →
        validate_extraction d
          = { r with is_valid := false, errors := r.errors ++ [.validationError e] }) :=
  ⟨(validate_extraction_wellformed d).1, (validate_extraction_wellformed d).2,
   fun r e h => validate_extraction_catch d r e h⟩

/-- Witness for C3: a zero-item input whose `subtotal` slot holds a
non-numeric value still produces a degraded report. -/
theorem validator_never_raises_witness :
    (validate_extraction ⟨"", "", [], .invalid "nan", .num 0, .num 0, .num 0⟩).is_valid = false
    ∧ (validate_extraction ⟨"", "", [], .invalid "nan", .num 0, .num 0, .num 0⟩).errors ≠ [] :=
  (validator_never_raises ⟨"", "", [], .invalid "nan", .num 0, .num 0, .num 0⟩).2.1 rfl

end DocExtractor
